import Mathlib

/-!
Verification development for the narration/session controller of the
assistive reading appliance in `src/main.py`.

Text is modelled as `List Char`.  Machine-level concerns (GPIO wiring,
camera, the remote extraction API, the TTS service) are external
collaborators; their outcomes are supplied through oracles.  Wall-clock
time is modelled in milliseconds as `Nat`; each iteration of the worker's
playback monitor loop (`time.sleep(0.1)`) advances the clock by 100 ms.
-/

namespace VVR

/-! ## Sentence segmentation (src/main.py line 110)

`sentences = [s.strip() + '.' for s in text.split('.') if s.strip()]` -/

/-- Whitespace characters recognised by Python's `str.strip()` (the ones
relevant to extracted text). -/
def isSpaceChar (c : Char) : Bool :=
  c = ' ' || c = '\t' || c = '\n' || c = '\r'

/-- Python's `str.strip()`: drop leading and trailing whitespace. -/
def strip (s : List Char) : List Char :=
  ((s.dropWhile isSpaceChar).reverse.dropWhile isSpaceChar).reverse

/-- Python's `text.split('.')`: split at every occurrence of the dot,
keeping empty fragments.  The result is always nonempty. -/
def splitOnDot : List Char → List (List Char)
  | [] => [[]]
  | c :: rest =>
    match splitOnDot rest with
    | [] => [[]]
    | g :: gs => if c = '.' then [] :: g :: gs else (c :: g) :: gs

/-- The sentence list built by `read_worker`
(`[s.strip() + '.' for s in text.split('.') if s.strip()]`). -/
def sentences (text : List Char) : List (List Char) :=
  (splitOnDot text).filterMap
    (fun s => if strip s = [] then none else some (strip s ++ ['.']))

/-! ## Button debouncing (src/main.py lines 22–29)

`button_pressed(pin)` compares `time.time()` with the last accepted press
of the same pin; the press is promoted to a logical event only when more
than `DEBOUNCE_TIME` (0.3 s, here 300 ms) has elapsed and the pin reads
LOW.  The returned pair is (event accepted, updated last-press time). -/

def DEBOUNCE_TIME : Nat := 300

def button_pressed (last now : Nat) (pinLow : Bool) : Bool × Nat :=
  if DEBOUNCE_TIME < now - last then
    if pinLow then (true, now) else (false, last)
  else (false, last)

/-! ## Main-loop dispatch (src/main.py lines 316–334)

The main loop polls the three buttons with an `if`/`elif` chain:
capture first, then pause, then stop. -/

inductive Button
  | capture
  | pauseToggle
  | cancel
deriving DecidableEq

/-- Last accepted press times of the three buttons
(`last_button_press`, src/main.py line 20). -/
structure ButtonsLast where
  capture : Nat
  pause : Nat
  halt : Nat
deriving DecidableEq

/-- One iteration of the main loop's button checks: the `if`/`elif`
chain at src/main.py lines 316–334.  Returns the dispatched logical event
(if any) and the updated debounce state. -/
def main_poll (bl : ButtonsLast) (now : Nat) (capLow pauseLow stopLow : Bool) :
    Option Button × ButtonsLast :=
  let cap := button_pressed bl.capture now capLow
  if cap.1 then (some Button.capture, { bl with capture := cap.2 })
  else
    let pa := button_pressed bl.pause now pauseLow
    if pa.1 then (some Button.pauseToggle, { bl with pause := pa.2 })
    else
      let st := button_pressed bl.halt now stopLow
      if st.1 then (some Button.cancel, { bl with halt := st.2 })
      else (none, bl)

/-! ## The narration worker (src/main.py lines 102–165)

`read_worker` iterates over the sentence list.  Per sentence it checks
the 10-minute limit (`time.time() - start_time > 600`), then the
`stop_reading` flag, renders the sentence (`create_audio_file`), spawns a
playback subprocess (`play_audio_file`) and monitors it every 100 ms,
honouring `stop_reading` (terminate and exit) and `is_paused`
(terminate, busy-wait, replay the same sentence from its start).

The embedding is a small-step transition system.  A `Config` is the
shared `AppState` plus the worker's position; one `Act.tick` is one
worker decision point (a loop-boundary check or one 100 ms monitor
poll); `Act.pauseBtn` / `Act.stopBtn` are the main-thread handlers
`handle_pause_button` / `handle_stop_button`.

The Progress Store is absent from src/main.py (the spec describes it for
the most advanced variant); the `checkpoint` field and its updates are
modelled from the spec: a checkpoint `{sequence_id, next_unit_index}` is
persisted after each unit finishes playing (and advanced past a unit
skipped on a render/playback failure), deleted when the session ends in
`Completed` or `Cancelled`, and left in place on a session-budget
timeout. -/

/-- A persisted progress record.  Modelled from the spec: the Progress
Store does not exist in src/main.py.  `next_unit_index` is 1-based. -/
structure Checkpoint where
  sequence_id : List Char
  next_unit_index : Nat
deriving DecidableEq

/-- Why the worker's loop ended: by exhausting the sentence list
(spec `Completed`), by the 10-minute budget (spec `Completed` via
timeout), or via `stop_reading` (spec `Cancelled`). -/
inductive EndReason
  | completed
  | timeLimit
  | stopped
deriving DecidableEq

/-- Where the worker is inside `read_worker`. -/
inductive Phase
  | boundary
  /-- Playback subprocess live; `remaining` 100 ms polls until the
  monitor loop would observe it finished. -/
  | playing (remaining : Nat)
  /-- Playback terminated by a pause; busy-waiting for resume. -/
  | pausedWait
  | finished (r : EndReason)
deriving DecidableEq

/-- Outcomes of the external collaborators, per 0-based unit index:
whether `create_audio_file` succeeds, whether `play_audio_file` returns
a process, and the unit's playback duration in 100 ms polls. -/
structure Env where
  create_audio_ok : Nat → Bool
  play_audio_ok : Nat → Bool
  dur : Nat → Nat

/-- The shared `AppState` plus the worker's position.  `now` is the
elapsed time since `state.start_time` in milliseconds; `live` is the set
of live narration playback subprocesses (by pid); `spoken` is a ghost
log of the 0-based indices of units whose playback ran to completion. -/
structure Config where
  n : Nat
  seqId : List Char
  idx : Nat
  phase : Phase
  isPaused : Bool
  stopReading : Bool
  now : Nat
  live : List Nat
  nextPid : Nat
  checkpoint : Option Checkpoint
  spoken : List Nat
deriving DecidableEq

/-- The 10-minute session budget (src/main.py line 114), in ms. -/
def SESSION_LIMIT : Nat := 600000

/-- `state.reset_reading_state()` at the end of `read_worker`: clear the
flags and terminate any live subprocess.  The checkpoint handling is
modelled from the spec: deleted on `Completed`/`Cancelled`, left in
place on a budget timeout. -/
def finishWith (r : EndReason) (c : Config) : Config :=
  { c with phase := Phase.finished r, isPaused := false, stopReading := false,
           live := [],
           checkpoint := if r = EndReason.timeLimit then c.checkpoint else none }

/-- Top of the `for` loop in `read_worker`: sentence exhaustion, then
the 10-minute check, then `stop_reading`, then render and spawn.  A
failed render or spawn `continue`s to the next sentence (the checkpoint
advance past the skipped unit is modelled from the spec). -/
def boundaryStep (env : Env) (c : Config) : Config :=
  if c.n ≤ c.idx then finishWith EndReason.completed c
  else if SESSION_LIMIT < c.now then finishWith EndReason.timeLimit c
  else if c.stopReading then finishWith EndReason.stopped c
  else if !env.create_audio_ok c.idx then
    { c with idx := c.idx + 1,
             checkpoint := some ⟨c.seqId, c.idx + 2⟩ }
  else if !env.play_audio_ok c.idx then
    { c with idx := c.idx + 1,
             checkpoint := some ⟨c.seqId, c.idx + 2⟩ }
  else
    { c with phase := Phase.playing (env.dur c.idx),
             live := [c.nextPid], nextPid := c.nextPid + 1 }

/-- One pass of the monitor loop (src/main.py lines 133–149).  With the
subprocess finished (`remaining = 0`) the unit is complete: the loop
exits and the `for` loop advances (the checkpoint write is modelled from
the spec).  Otherwise `time.sleep(0.1)`, then `stop_reading` terminates
the subprocess and exits to the next loop boundary, and `is_paused`
terminates the subprocess and enters the busy-wait. -/
def playingStep (_env : Env) (c : Config) (remaining : Nat) : Config :=
  match remaining with
  | 0 =>
    { c with live := [], idx := c.idx + 1, phase := Phase.boundary,
             checkpoint := some ⟨c.seqId, c.idx + 2⟩,
             spoken := c.spoken ++ [c.idx] }
  | r + 1 =>
    let c := { c with now := c.now + 100 }
    if c.stopReading then
      { c with live := [], phase := Phase.boundary, idx := c.idx + 1 }
    else if c.isPaused then
      { c with live := [], phase := Phase.pausedWait }
    else
      { c with phase := Phase.playing r }

/-- The pause busy-wait (src/main.py lines 143–149): `stop_reading`
abandons the unit (the dead subprocess makes the monitor loop exit to
the next boundary); while still paused, sleep; on resume, replay the
same sentence from its start (`play_audio_file()` on the same file), a
failed replay abandoning the unit. -/
def pausedStep (env : Env) (c : Config) : Config :=
  if c.stopReading then
    { c with phase := Phase.boundary, idx := c.idx + 1 }
  else if c.isPaused then
    { c with now := c.now + 100 }
  else if env.play_audio_ok c.idx then
    { c with phase := Phase.playing (env.dur c.idx),
             live := [c.nextPid], nextPid := c.nextPid + 1 }
  else
    { c with phase := Phase.boundary, idx := c.idx + 1 }

/-- One worker decision point of `read_worker`. -/
def read_worker_step (env : Env) (c : Config) : Config :=
  match c.phase with
  | Phase.boundary => boundaryStep env c
  | Phase.playing r => playingStep env c r
  | Phase.pausedWait => pausedStep env c
  | Phase.finished _ => c

/-- `state.is_reading`: set while the worker runs, cleared by
`reset_reading_state`. -/
def is_reading (c : Config) : Bool :=
  match c.phase with
  | Phase.finished _ => false
  | _ => true

/-- `handle_pause_button` (src/main.py lines 272–281): toggle
`is_paused` when a session is active. -/
def handle_pause_button (c : Config) : Config :=
  if is_reading c then { c with isPaused := !c.isPaused } else c

/-- `handle_stop_button` (src/main.py lines 283–289): set `stop_reading`
when a session is active. -/
def handle_stop_button (c : Config) : Config :=
  if is_reading c then { c with stopReading := true } else c

/-- An interleaving event: one worker decision point, or one of the
button handlers run by the main loop. -/
inductive Act
  | tick
  | pauseBtn
  | stopBtn
deriving DecidableEq

def stepAct (env : Env) (a : Act) (c : Config) : Config :=
  match a with
  | Act.tick => read_worker_step env c
  | Act.pauseBtn => handle_pause_button c
  | Act.stopBtn => handle_stop_button c

def run (env : Env) (c : Config) (acts : List Act) : Config :=
  acts.foldl (fun c a => stepAct env a c) c

/-- The worker's starting state: `read_worker` begins at the given unit
with fresh flags, `start_time = time.time()`, no live subprocess.  In
src/main.py the start index is always 0; the spec's resume-after-restart
may supply a later one together with a retained checkpoint. -/
def initConfig (n : Nat) (seqId : List Char) (startIdx : Nat)
    (cp : Option Checkpoint) : Config :=
  { n := n, seqId := seqId, idx := startIdx, phase := Phase.boundary,
    isPaused := false, stopReading := false, now := 0, live := [],
    nextPid := 0, checkpoint := cp, spoken := [] }

/-- Modelled from the spec: the content fingerprint of the extracted
text (the spec suggests a hash; an injective fingerprint is modelled as
the text itself). -/
def fingerprint (text : List Char) : List Char := text

/-- Modelled from the spec: on startup, a checkpoint whose
`sequence_id` matches the new text's fingerprint is resumed from
`next_unit_index`; a stale checkpoint is discarded and narration starts
at unit 1.  Returns (1-based start index, retained checkpoint). -/
def startup_resume (cp : Option Checkpoint) (text : List Char) :
    Nat × Option Checkpoint :=
  match cp with
  | none => (1, none)
  | some k =>
    if k.sequence_id = fingerprint text then (k.next_unit_index, some k)
    else (1, none)

/-- Modelled from the spec: build the worker's starting configuration
for newly extracted text, honouring a persisted checkpoint. -/
def start_session (text : List Char) (cp : Option Checkpoint) : Config :=
  let r := startup_resume cp text
  initConfig (sentences text).length (fingerprint text) (r.1 - 1) r.2

/-! ## Handing new text to the worker: the two-thread model
(src/main.py lines 102–165)

`read_text_threaded` on an active session sets the shared
`state.stop_reading`, joins the old worker thread with `timeout=2`, and
then starts a fresh worker thread unconditionally — also when the join
timed out.  The new thread's body begins by resetting the shared flags
(lines 105–106), including `stop_reading = False`.  To capture this the
model has two worker threads over one shared `AppState`, and — unlike
the single-thread model — renders (`create_audio_file`, a network TTS
call with no duration bound) occupy a separate blocking phase:
`stop_reading` is checked at line 118 before the render, but not
between the render's return and the spawn of playback at line 128.

Scheduling is lock-step: one `ActT.tickT` is one 100 ms quantum in
which the old worker, then the new worker, then the main thread (when
inside the join) each take one step.  Each worker monitors the playback
subprocess it spawned (`liveOld`/`liveNew`); in the source both even
share `state.current_process`, so per-worker handles are the charitable
reading — the shared handle only adds interference.  The 600 s session
budget is retained in the single-thread model; it is elided here
because every property below spans a few seconds, where the check at
line 114 never fires.  Renders are assumed to succeed (the failure
branch is the single-thread model's skip and is orthogonal to the
handoff). -/

/-- Phases of one `read_worker` thread in the two-thread model.
`starting` is the thread body's first statements (lines 105–107), which
reset the shared flags; `rendering` is the blocking
`create_audio_file` call. -/
inductive WPhase
  | starting
  | boundary
  | rendering (remaining : Nat)
  | playing (remaining : Nat)
  | pausedW
  | finishedW
deriving DecidableEq

/-- Thread-local state of one `read_worker`: its sentence count and
0-based position. -/
structure WState where
  n : Nat
  idx : Nat
  phase : WPhase
deriving DecidableEq

/-- Per-unit collaborator timings for the two-thread model: how many
100 ms quanta `create_audio_file` blocks, and the playback duration in
100 ms polls. -/
structure EnvT where
  renderTime : Nat → Nat
  dur : Nat → Nat

/-- The shared `AppState` (`stopR` = `stop_reading`, `pausedR` =
`is_paused`), both worker threads, and the main thread's position
inside `join(timeout=2)` (`joinLeft = some k`: k polls of the join
window remain; the pending new text has `newN` units). -/
structure Sys where
  stopR : Bool
  pausedR : Bool
  old : WState
  newW : Option WState
  joinLeft : Option Nat
  newN : Nat
  liveOld : Bool
  liveNew : Bool
deriving DecidableEq

/-- The 2 s join timeout (src/main.py line 162) in 100 ms quanta. -/
def JOIN_POLLS : Nat := 20

/-- One step of the old worker thread.  A terminal transition performs
`reset_reading_state` (flags cleared, live subprocess terminated). -/
def oldStepT (env : EnvT) (s : Sys) : Sys :=
  match s.old.phase with
  | WPhase.starting =>
      { s with old := { s.old with phase := WPhase.boundary }, stopR := false }
  | WPhase.boundary =>
      if s.old.n ≤ s.old.idx then
        { s with old := { s.old with phase := WPhase.finishedW },
                 liveOld := false, stopR := false, pausedR := false }
      else if s.stopR then
        { s with old := { s.old with phase := WPhase.finishedW },
                 liveOld := false, stopR := false, pausedR := false }
      else
        { s with old :=
            { s.old with phase := WPhase.rendering (env.renderTime s.old.idx) } }
  | WPhase.rendering 0 =>
      { s with old := { s.old with phase := WPhase.playing (env.dur s.old.idx) },
               liveOld := true }
  | WPhase.rendering (r + 1) =>
      { s with old := { s.old with phase := WPhase.rendering r } }
  | WPhase.playing 0 =>
      { s with old := { s.old with idx := s.old.idx + 1, phase := WPhase.boundary },
               liveOld := false }
  | WPhase.playing (r + 1) =>
      if s.stopR then
        { s with old := { s.old with idx := s.old.idx + 1, phase := WPhase.boundary },
                 liveOld := false }
      else if s.pausedR then
        { s with old := { s.old with phase := WPhase.pausedW }, liveOld := false }
      else
        { s with old := { s.old with phase := WPhase.playing r } }
  | WPhase.pausedW =>
      if s.stopR then
        { s with old := { s.old with idx := s.old.idx + 1, phase := WPhase.boundary } }
      else if s.pausedR then s
      else
        { s with old := { s.old with phase := WPhase.playing (env.dur s.old.idx) },
                 liveOld := true }
  | WPhase.finishedW => s

/-- One step of the new worker thread (absent until the join exits).
Its `starting` step resets the shared `stop_reading` flag — line 106,
the reset that can revive a stalled old worker. -/
def newStepT (env : EnvT) (s : Sys) : Sys :=
  match s.newW with
  | none => s
  | some w =>
    match w.phase with
    | WPhase.starting =>
        { s with newW := some { w with phase := WPhase.boundary },
                 stopR := false }
    | WPhase.boundary =>
        if w.n ≤ w.idx then
          { s with newW := some { w with phase := WPhase.finishedW },
                   liveNew := false, stopR := false, pausedR := false }
        else if s.stopR then
          { s with newW := some { w with phase := WPhase.finishedW },
                   liveNew := false, stopR := false, pausedR := false }
        else
          { s with newW := some { w with phase := WPhase.rendering (env.renderTime w.idx) } }
    | WPhase.rendering 0 =>
        { s with newW := some { w with phase := WPhase.playing (env.dur w.idx) },
                 liveNew := true }
    | WPhase.rendering (r + 1) =>
        { s with newW := some { w with phase := WPhase.rendering r } }
    | WPhase.playing 0 =>
        { s with newW := some { w with idx := w.idx + 1, phase := WPhase.boundary },
                 liveNew := false }
    | WPhase.playing (r + 1) =>
        if s.stopR then
          { s with newW := some { w with idx := w.idx + 1, phase := WPhase.boundary },
                   liveNew := false }
        else if s.pausedR then
          { s with newW := some { w with phase := WPhase.pausedW },
                   liveNew := false }
        else
          { s with newW := some { w with phase := WPhase.playing r } }
    | WPhase.pausedW =>
        if s.stopR then
          { s with newW := some { w with idx := w.idx + 1, phase := WPhase.boundary } }
        else if s.pausedR then s
        else
          { s with newW := some { w with phase := WPhase.playing (env.dur w.idx) },
                   liveNew := true }
    | WPhase.finishedW => s

/-- One step of the main thread inside `join(timeout=2)`: the join
returns when the old worker's thread has exited, or when the window is
exhausted — in either case the new worker thread is then started at the
first unit of the pending text. -/
def mainStepT (s : Sys) : Sys :=
  match s.joinLeft with
  | none => s
  | some k =>
    if s.old.phase = WPhase.finishedW then
      { s with joinLeft := none,
               newW := some { n := s.newN, idx := 0, phase := WPhase.starting } }
    else
      match k with
      | 0 => { s with joinLeft := none,
                      newW := some { n := s.newN, idx := 0,
                                     phase := WPhase.starting } }
      | k + 1 => { s with joinLeft := some k }

/-- Entry into `read_text_threaded` (lines 160–165): with the old
thread alive, set the shared `stop_reading` and begin the 2 s join;
otherwise start the new worker thread immediately. -/
def handoffT (nNew : Nat) (s : Sys) : Sys :=
  if s.old.phase = WPhase.finishedW then
    { s with newN := nNew,
             newW := some { n := nNew, idx := 0, phase := WPhase.starting } }
  else
    { s with stopR := true, joinLeft := some JOIN_POLLS, newN := nNew }

/-- One global event of the two-thread model: a 100 ms quantum in which
each thread takes one step, or the arrival of newly extracted text. -/
inductive ActT
  | tickT
  | captureEv (nNew : Nat)
deriving DecidableEq

/-- One 100 ms lock-step quantum: old worker, then new worker, then the
joining main thread. -/
def sysTick (env : EnvT) (s : Sys) : Sys :=
  mainStepT (newStepT env (oldStepT env s))

def stepActT (env : EnvT) (a : ActT) (s : Sys) : Sys :=
  match a with
  | ActT.tickT => sysTick env s
  | ActT.captureEv nNew => handoffT nNew s

def runT (env : EnvT) (s : Sys) (acts : List ActT) : Sys :=
  acts.foldl (fun s a => stepActT env a s) s

/-! ## Concrete collaborator environments and configurations

Used to exercise the theorems on the spec's worked examples. -/

/-- Collaborators that always succeed; every unit plays for three
100 ms polls. -/
def envAll3 : Env :=
  { create_audio_ok := fun _ => true, play_audio_ok := fun _ => true,
    dur := fun _ => 3 }

/-- Collaborators that always succeed; every unit plays for two
100 ms polls. -/
def envAll2 : Env :=
  { create_audio_ok := fun _ => true, play_audio_ok := fun _ => true,
    dur := fun _ => 2 }

/-- Collaborators that always succeed; every unit plays for 7000
100 ms polls (700 s), longer than the whole session budget. -/
def envLong : Env :=
  { create_audio_ok := fun _ => true, play_audio_ok := fun _ => true,
    dur := fun _ => 7000 }

/-- Collaborators where rendering fails exactly for the unit at 0-based
index 1 (the second unit); every playing unit takes two polls. -/
def envSkip1 : Env :=
  { create_audio_ok := fun i => i != 1, play_audio_ok := fun _ => true,
    dur := fun _ => 2 }

/-- Mid-play configuration for the spec's cancel example: N = 5, unit 3
(0-based index 2) currently playing. -/
def c1w : Config :=
  { n := 5, seqId := ['t'], idx := 2, phase := Phase.playing 2,
    isPaused := false, stopReading := false, now := 1300, live := [2],
    nextPid := 3, checkpoint := some ⟨['t'], 3⟩, spoken := [0, 1] }

/-- Mid-play configuration for the spec's pause example: N = 3, unit 2
(0-based index 1) currently playing with one poll left. -/
def c2w : Config :=
  { n := 3, seqId := ['t'], idx := 1, phase := Phase.playing 1,
    isPaused := false, stopReading := false, now := 500, live := [1],
    nextPid := 2, checkpoint := some ⟨['t'], 2⟩, spoken := [0] }

/-- A unit boundary reached after the session budget has expired. -/
def c3w : Config :=
  { n := 2, seqId := ['t'], idx := 0, phase := Phase.boundary,
    isPaused := false, stopReading := false, now := 600100, live := [],
    nextPid := 0, checkpoint := none, spoken := [] }

/-- A unit (0-based index 2) whose playback subprocess has just been
observed finished. -/
def c4w : Config :=
  { n := 5, seqId := ['a', 'b'], idx := 2, phase := Phase.playing 0,
    isPaused := false, stopReading := false, now := 900, live := [2],
    nextPid := 3, checkpoint := some ⟨['a', 'b'], 3⟩, spoken := [0, 1] }

/-- A unit boundary at 0-based index 1 of 3 with the second unit's
render about to be attempted. -/
def c5w : Config :=
  { n := 3, seqId := ['t'], idx := 1, phase := Phase.boundary,
    isPaused := false, stopReading := false, now := 400, live := [],
    nextPid := 1, checkpoint := some ⟨['t'], 2⟩, spoken := [0] }

/-- Collaborators where unit 0 renders fast (100 ms) but every later
unit plays for two 100 ms polls after a 100 ms render; unit 1 of the
old text takes 3 s (30 quanta) to render — longer than the 2 s join
timeout; all playbacks last 5 s. -/
def envT10 : EnvT :=
  { renderTime := fun i => if i = 0 then 1 else 30, dur := fun _ => 50 }

/-- An old worker mid-session: unit at 0-based index 1 of 3 about to be
rendered; no new text pending. -/
def s10 : Sys :=
  { stopR := false, pausedR := false,
    old := { n := 3, idx := 1, phase := WPhase.boundary },
    newW := none, joinLeft := none, newN := 0,
    liveOld := false, liveNew := false }

/-- The race schedule: the old worker enters its 3 s render, new text
arrives, the 2 s join expires while the render still blocks, the new
worker starts and plays — and then the old render returns and the old
worker spawns its playback too. -/
def handoff_race : List ActT :=
  [ActT.tickT, ActT.captureEv 1] ++ List.replicate 31 ActT.tickT

/-- An old worker whose playback is being monitored (stop flag already
set by `read_text_threaded`, join in progress, new text of one unit
pending). -/
def s10b : Sys :=
  { stopR := true, pausedR := false,
    old := { n := 3, idx := 1, phase := WPhase.playing 4 },
    newW := none, joinLeft := some 20, newN := 1,
    liveOld := true, liveNew := false }

/-- A joined configuration: the old worker's thread has exited while
the main thread was still inside the join window. -/
def s10c : Sys :=
  { stopR := false, pausedR := false,
    old := { n := 3, idx := 2, phase := WPhase.finishedW },
    newW := none, joinLeft := some 18, newN := 1,
    liveOld := false, liveNew := false }

/-- Collaborators for the cancel-past-deadline scenario: the first unit
plays for two polls, every later unit for 700 s. -/
def envC1b : Env :=
  { create_audio_ok := fun _ => true, play_audio_ok := fun _ => true,
    dur := fun i => if i = 0 then 2 else 7000 }

/-! ## Theorems about segmentation -/

theorem splitOnDot_ne_nil (s : List Char) : splitOnDot s ≠ [] := by
  cases s with
  | nil => simp [splitOnDot]
  | cons c rest =>
    simp only [splitOnDot]
    cases h : splitOnDot rest with
    | nil => simp
    | cons g gs =>
      by_cases hc : c = '.' <;> simp [hc]

theorem splitOnDot_of_no_dot (s : List Char) (h : '.' ∉ s) :
    splitOnDot s = [s] := by
  induction s with
  | nil => rfl
  | cons c rest ih =>
    have hc : c ≠ '.' := fun he => h (he ▸ List.mem_cons_self c rest)
    have hrest : '.' ∉ rest := fun hm => h (List.mem_cons_of_mem c hm)
    simp only [splitOnDot, ih hrest]
    simp [fun he => hc he]

/-- Segmentation of a dot-free text: either a single unit (the stripped
text plus an appended dot) or, for whitespace-only text, no units. -/
theorem sentences_of_no_dot (s : List Char) (h : '.' ∉ s) :
    sentences s = if strip s = [] then [] else [strip s ++ ['.']] := by
  simp only [sentences, splitOnDot_of_no_dot s h, List.filterMap]
  by_cases hs : strip s = [] <;> simp [hs]

/-! ## Basic lemmas about runs -/

@[simp]
theorem run_nil (env : Env) (c : Config) : run env c [] = c := rfl

@[simp]
theorem run_cons (env : Env) (c : Config) (a : Act) (acts : List Act) :
    run env c (a :: acts) = run env (stepAct env a c) acts := rfl

theorem run_append (env : Env) (c : Config) (l l' : List Act) :
    run env c (l ++ l') = run env (run env c l) l' := by
  simp [run, List.foldl_append]

/-- While the subprocess plays and neither flag is set, `k ≤ d` monitor
polls leave `k · 100` ms on the clock and `d - k` polls remaining. -/
theorem play_ticks (env : Env) :
    ∀ (k : Nat) (c : Config) (d : Nat), c.phase = Phase.playing d → k ≤ d →
      c.isPaused = false → c.stopReading = false →
      run env c (List.replicate k Act.tick) =
        { c with phase := Phase.playing (d - k), now := c.now + 100 * k } := by
  intro k
  induction k with
  | zero =>
    intro c d hp _ _ _
    simp only [List.replicate_zero, run_nil, Nat.mul_zero, Nat.add_zero, Nat.sub_zero]
    rw [← hp]
  | succ k ih =>
    intro c d hp hk hpa hst
    match d, hk with
    | m + 1, hk =>
      have hstep : stepAct env Act.tick c =
          { c with phase := Phase.playing m, now := c.now + 100 } := by
        simp [stepAct, read_worker_step, hp, playingStep, hst, hpa]
      rw [List.replicate_succ, run_cons, hstep,
        ih { c with phase := Phase.playing m, now := c.now + 100 } m rfl
          (Nat.succ_le_succ_iff.mp hk) hpa hst]
      simp [Config.mk.injEq, Phase.playing.injEq]
      omega

/-- A terminal phase is absorbing: no act changes the configuration
(the worker thread has exited; the handlers see `is_reading` false). -/
theorem stepAct_finished (env : Env) (a : Act) (c : Config) (r : EndReason)
    (h : c.phase = Phase.finished r) : stepAct env a c = c := by
  cases a with
  | tick => simp [stepAct, read_worker_step, h]
  | pauseBtn => simp [stepAct, handle_pause_button, is_reading, h]
  | stopBtn => simp [stepAct, handle_stop_button, is_reading, h]

theorem run_finished (env : Env) (c : Config) (r : EndReason)
    (h : c.phase = Phase.finished r) : ∀ acts : List Act, run env c acts = c := by
  intro acts
  induction acts with
  | nil => rfl
  | cons a acts ih => rw [run_cons, stepAct_finished env a c r h, ih]

/-- Once `stop_reading` is set, the worker reaches a terminal phase with
no live subprocess within two decision points. -/
theorem stop_terminates (env : Env) (c : Config) (h : c.stopReading = true)
    (hr : is_reading c = true) :
    ∃ r, (read_worker_step env (read_worker_step env c)).phase = Phase.finished r ∧
      (read_worker_step env (read_worker_step env c)).live = [] := by
  have hbdy : ∀ c' : Config, c'.phase = Phase.boundary → c'.stopReading = true →
      ∃ r, (read_worker_step env c').phase = Phase.finished r ∧
        (read_worker_step env c').live = [] := by
    intro c' hp hs
    simp only [read_worker_step, hp, boundaryStep]
    by_cases h1 : c'.n ≤ c'.idx
    · exact ⟨EndReason.completed, by simp [h1, finishWith]⟩
    · by_cases h2 : SESSION_LIMIT < c'.now
      · exact ⟨EndReason.timeLimit, by simp [h1, h2, finishWith]⟩
      · exact ⟨EndReason.stopped, by simp [h1, h2, hs, finishWith]⟩
  match hp : c.phase with
  | Phase.boundary =>
    obtain ⟨r, hr2, hl⟩ := hbdy c hp h
    have habs : stepAct env Act.tick (read_worker_step env c) = read_worker_step env c :=
      stepAct_finished env Act.tick _ r hr2
    simp only [stepAct] at habs
    rw [habs]
    exact ⟨r, hr2, hl⟩
  | Phase.playing 0 =>
    have h1 : read_worker_step env c =
        { c with live := [], idx := c.idx + 1, phase := Phase.boundary,
                 checkpoint := some ⟨c.seqId, c.idx + 2⟩,
                 spoken := c.spoken ++ [c.idx] } := by
      simp [read_worker_step, hp, playingStep]
    exact hbdy _ (by simp [h1]) (by simp [h1, h])
  | Phase.playing (r + 1) =>
    have h1 : read_worker_step env c =
        { c with now := c.now + 100, live := [], phase := Phase.boundary,
                 idx := c.idx + 1 } := by
      simp [read_worker_step, hp, playingStep, h]
    exact hbdy _ (by simp [h1]) (by simp [h1, h])
  | Phase.pausedWait =>
    have h1 : read_worker_step env c =
        { c with phase := Phase.boundary, idx := c.idx + 1 } := by
      simp [read_worker_step, hp, pausedStep, h]
    exact hbdy _ (by simp [h1]) (by simp [h1, h])
  | Phase.finished r =>
    simp [is_reading, hp] at hr

/-! ## The playback-handle invariant -/

/-- C7 counterexample: the input `"hi"` contains no sentence-terminal
punctuation, yet its single narration unit is `"hi."` — the trimmed
input with a dot appended — not the trimmed input itself. -/
theorem segment_no_dot_counterexample :
    ('.' ∉ ['h', 'i']) ∧
    strip ['h', 'i'] = ['h', 'i'] ∧
    sentences ['h', 'i'] = [['h', 'i', '.']] ∧
    sentences ['h', 'i'] ≠ [strip ['h', 'i']] := by
  refine ⟨by decide, by decide, by decide, by decide⟩

/-- C7 (amended): for input text containing no `'.'`, segmentation
yields exactly one unit — the trimmed input with a `'.'` appended —
provided the trimmed input is nonempty; whitespace-only input yields no
units. -/
theorem segment_no_dot_single_unit_appends_dot (s : List Char)
    (h : '.' ∉ s) :
    (strip s ≠ [] → sentences s = [strip s ++ ['.']]) ∧
    (strip s = [] → sentences s = []) := by
  constructor
  · intro hs
    rw [sentences_of_no_dot s h]
    simp [hs]
  · intro hs
    rw [sentences_of_no_dot s h]
    simp [hs]

/-- C7 witness: the amended statement at the inputs `"hi"` and `" "`. -/
theorem segment_no_dot_witness :
    sentences ['h', 'i'] = [strip ['h', 'i'] ++ ['.']] ∧
    sentences [' '] = [] :=
  ⟨(segment_no_dot_single_unit_appends_dot ['h', 'i'] (by decide)).1 (by decide),
   (segment_no_dot_single_unit_appends_dot [' '] (by decide)).2 (by decide)⟩

/-- C8: a press is promoted to a logical event only when at least
`DEBOUNCE_TIME` has elapsed since the last accepted event on the same
button; an accepted event updates that button's last-accepted time, so
a second press within the debounce interval is rejected — two presses
50 ms apart yield exactly one logical event. -/
theorem debounce_single_event (last now now2 : Nat) (low low2 : Bool)
    (hacc : (button_pressed last now low).1 = true)
    (hclose : now2 - now ≤ DEBOUNCE_TIME) :
    DEBOUNCE_TIME ≤ now - last ∧
    (button_pressed last now low).2 = now ∧
    (button_pressed (button_pressed last now low).2 now2 low2).1 = false := by
  unfold button_pressed at hacc ⊢
  by_cases h1 : DEBOUNCE_TIME < now - last
  · by_cases h2 : low = true
    · have h3 : ¬ DEBOUNCE_TIME < now2 - now := by omega
      simp [h1, h2, h3, Nat.le_of_lt h1]
    · simp [h1, h2] at hacc
  · simp [h1] at hacc

/-- C8 witness: a press at 400 ms (last accepted at 0) is accepted; a
second press 50 ms later is rejected. -/
theorem debounce_single_event_witness :
    DEBOUNCE_TIME ≤ 400 - 0 ∧
    (button_pressed 0 400 true).2 = 400 ∧
    (button_pressed (button_pressed 0 400 true).2 450 true).1 = false :=
  debounce_single_event 0 400 450 true true (by decide) (by decide)

/-- C6 counterexample: with all three buttons asserted in the same tick
and every button past its debounce window, the main loop dispatches
`Capture`, not `Cancel` — the `if`/`elif` chain checks the capture
button first, so the claimed priority `Cancel > PauseToggle > Capture`
is violated. -/
theorem button_priority_counterexample :
    (button_pressed (ButtonsLast.mk 0 0 0).halt 1000 true).1 = true ∧
    (main_poll ⟨0, 0, 0⟩ 1000 true true true).1 = some Button.capture ∧
    (main_poll ⟨0, 0, 0⟩ 1000 true true true).1 ≠ some Button.cancel := by
  refine ⟨by decide, by decide, by decide⟩

/-- C6 (amended): when more than one button is asserted in the same
polling tick, events are honored in the priority order
`Capture > PauseToggle > Cancel`. -/
theorem button_priority_capture_first (bl : ButtonsLast) (now : Nat)
    (capLow pauseLow stopLow : Bool) :
    ((button_pressed bl.capture now capLow).1 = true →
      (main_poll bl now capLow pauseLow stopLow).1 = some Button.capture) ∧
    ((button_pressed bl.capture now capLow).1 = false →
      (button_pressed bl.pause now pauseLow).1 = true →
      (main_poll bl now capLow pauseLow stopLow).1 = some Button.pauseToggle) ∧
    ((button_pressed bl.capture now capLow).1 = false →
      (button_pressed bl.pause now pauseLow).1 = false →
      (button_pressed bl.halt now stopLow).1 = true →
      (main_poll bl now capLow pauseLow stopLow).1 = some Button.cancel) := by
  refine ⟨?_, ?_, ?_⟩
  · intro h1
    simp [main_poll, h1]
  · intro h1 h2
    simp [main_poll, h1, h2]
  · intro h1 h2 h3
    simp [main_poll, h1, h2, h3]

/-- C6 witness: the amended priority at a concrete tick in which only
the stop button is asserted. -/
theorem button_priority_witness :
    (main_poll ⟨0, 0, 0⟩ 1000 false false true).1 = some Button.cancel :=
  (button_priority_capture_first ⟨0, 0, 0⟩ 1000 false false true).2.2
    (by decide) (by decide) (by decide)

/-- C1 counterexample: two concrete runs on which the claim, as
stated, fails.  First, with N = 1 a Cancel during the only (last) unit
ends the session in the `Completed` terminal state, not `Cancelled`:
after the mid-play terminate-and-break the `for` loop is exhausted
before the `stop_reading` check at line 118 runs again.  Second, with
the second of three units playing past the 600 s budget, a Cancel ends
the session in the `Completed`-by-timeout state — the check at line 114
runs before the stop check — and the checkpoint written after unit 1 is
retained, not deleted. -/
theorem cancel_not_always_cancelled_counterexample :
    ((run envAll2 (initConfig 1 ['t'] 0 none)
        [Act.tick, Act.stopBtn, Act.tick, Act.tick]).phase
      = Phase.finished EndReason.completed ∧
     (run envAll2 (initConfig 1 ['t'] 0 none)
        [Act.tick, Act.stopBtn, Act.tick, Act.tick]).phase
      ≠ Phase.finished EndReason.stopped) ∧
    ((run envC1b (initConfig 3 ['t'] 0 none)
        ((List.replicate 5 Act.tick ++ List.replicate 5999 Act.tick) ++
          [Act.stopBtn, Act.tick, Act.tick])).phase
      = Phase.finished EndReason.timeLimit ∧
     (run envC1b (initConfig 3 ['t'] 0 none)
        ((List.replicate 5 Act.tick ++ List.replicate 5999 Act.tick) ++
          [Act.stopBtn, Act.tick, Act.tick])).phase
      ≠ Phase.finished EndReason.stopped ∧
     (run envC1b (initConfig 3 ['t'] 0 none)
        ((List.replicate 5 Act.tick ++ List.replicate 5999 Act.tick) ++
          [Act.stopBtn, Act.tick, Act.tick])).checkpoint
      = some ⟨['t'], 2⟩ ∧
     (run envC1b (initConfig 3 ['t'] 0 none)
        ((List.replicate 5 Act.tick ++ List.replicate 5999 Act.tick) ++
          [Act.stopBtn, Act.tick, Act.tick])).checkpoint ≠ none) := by
  have hpre : run envC1b (initConfig 3 ['t'] 0 none)
      (List.replicate 5 Act.tick) =
      { n := 3, seqId := ['t'], idx := 1, phase := Phase.playing 7000,
        isPaused := false, stopReading := false, now := 200, live := [1],
        nextPid := 2, checkpoint := some ⟨['t'], 2⟩, spoken := [0] } := by
    decide
  have hmid : run envC1b
      { n := 3, seqId := ['t'], idx := 1, phase := Phase.playing 7000,
        isPaused := false, stopReading := false, now := 200, live := [1],
        nextPid := 2, checkpoint := some ⟨['t'], 2⟩, spoken := [0] }
      (List.replicate 5999 Act.tick) =
      { n := 3, seqId := ['t'], idx := 1, phase := Phase.playing 1001,
        isPaused := false, stopReading := false, now := 600100, live := [1],
        nextPid := 2, checkpoint := some ⟨['t'], 2⟩, spoken := [0] } := by
    rw [play_ticks envC1b 5999
      { n := 3, seqId := ['t'], idx := 1, phase := Phase.playing 7000,
        isPaused := false, stopReading := false, now := 200, live := [1],
        nextPid := 2, checkpoint := some ⟨['t'], 2⟩, spoken := [0] }
      7000 rfl (by omega) rfl rfl]
  have hfin : run envC1b (initConfig 3 ['t'] 0 none)
      ((List.replicate 5 Act.tick ++ List.replicate 5999 Act.tick) ++
        [Act.stopBtn, Act.tick, Act.tick]) =
      { n := 3, seqId := ['t'], idx := 2,
        phase := Phase.finished EndReason.timeLimit,
        isPaused := false, stopReading := false, now := 600200, live := [],
        nextPid := 2, checkpoint := some ⟨['t'], 2⟩, spoken := [0] } := by
    rw [run_append, run_append, hpre, hmid]
    decide
  rw [hfin]
  exact ⟨⟨by decide, by decide⟩, rfl, by decide, rfl, by decide⟩

/-- C1 (amended): a Cancel event during playback of unit k terminates
the playback subprocess at the worker's next decision point, and the
session ends at the following unit boundary — in the `Cancelled`
terminal state with the checkpoint deleted when further units remain
and the budget has not expired; as `Completed` (checkpoint likewise
deleted) when unit k was the last; and as `Completed`-by-timeout with
the checkpoint retained when the budget has already expired. -/
theorem cancel_mid_unit_outcomes (env : Env) (c : Config) (r : Nat)
    (hp : c.phase = Phase.playing r) :
    (read_worker_step env (handle_stop_button c)).live = [] ∧
    (∃ e, (read_worker_step env (read_worker_step env
        (handle_stop_button c))).phase = Phase.finished e) ∧
    (read_worker_step env (read_worker_step env (handle_stop_button c))).live
        = [] ∧
    (c.idx + 1 < c.n → c.now + 100 ≤ SESSION_LIMIT →
      (read_worker_step env (read_worker_step env
          (handle_stop_button c))).phase = Phase.finished EndReason.stopped ∧
      (read_worker_step env (read_worker_step env
          (handle_stop_button c))).checkpoint = none) ∧
    (c.n ≤ c.idx + 1 →
      (read_worker_step env (read_worker_step env
          (handle_stop_button c))).phase = Phase.finished EndReason.completed ∧
      (read_worker_step env (read_worker_step env
          (handle_stop_button c))).checkpoint = none) ∧
    (c.idx + 1 < c.n → SESSION_LIMIT < c.now →
      (read_worker_step env (read_worker_step env
          (handle_stop_button c))).phase = Phase.finished EndReason.timeLimit ∧
      (read_worker_step env (read_worker_step env
          (handle_stop_button c))).checkpoint
        = (read_worker_step env (handle_stop_button c)).checkpoint) := by
  have hread : is_reading c = true := by simp [is_reading, hp]
  have hS : handle_stop_button c = { c with stopReading := true } := by
    simp [handle_stop_button, hread]
  have hterm := stop_terminates env (handle_stop_button c)
    (by rw [hS]) (by rw [hS]; exact hread)
  obtain ⟨e, he, hl⟩ := hterm
  match r with
  | 0 =>
    have h1 : read_worker_step env (handle_stop_button c) =
        { c with stopReading := true, live := [], idx := c.idx + 1,
                 phase := Phase.boundary,
                 checkpoint := some ⟨c.seqId, c.idx + 2⟩,
                 spoken := c.spoken ++ [c.idx] } := by
      rw [hS]
      simp [read_worker_step, hp, playingStep]
    rw [h1]
    refine ⟨rfl, ⟨e, by rw [← h1]; exact he⟩, by rw [← h1]; exact hl,
      ?_, ?_, ?_⟩
    · intro hn ht
      have hn2 : ¬ (c.n ≤ c.idx + 1) := by omega
      have ht2 : ¬ (SESSION_LIMIT < c.now) := by omega
      simp [read_worker_step, boundaryStep, hn2, ht2, finishWith]
    · intro hn
      simp [read_worker_step, boundaryStep, hn, finishWith]
    · intro hn ht
      have hn2 : ¬ (c.n ≤ c.idx + 1) := by omega
      simp [read_worker_step, boundaryStep, hn2, ht, finishWith]
  | r + 1 =>
    have h1 : read_worker_step env (handle_stop_button c) =
        { c with stopReading := true, now := c.now + 100, live := [],
                 phase := Phase.boundary, idx := c.idx + 1 } := by
      rw [hS]
      simp [read_worker_step, hp, playingStep]
    rw [h1]
    refine ⟨rfl, ⟨e, by rw [← h1]; exact he⟩, by rw [← h1]; exact hl,
      ?_, ?_, ?_⟩
    · intro hn ht
      have hn2 : ¬ (c.n ≤ c.idx + 1) := by omega
      have ht2 : ¬ (SESSION_LIMIT < c.now + 100) := by omega
      simp [read_worker_step, boundaryStep, hn2, ht2, finishWith]
    · intro hn
      simp [read_worker_step, boundaryStep, hn, finishWith]
    · intro hn ht
      have hn2 : ¬ (c.n ≤ c.idx + 1) := by omega
      have ht2 : SESSION_LIMIT < c.now + 100 := by omega
      simp [read_worker_step, boundaryStep, hn2, ht2, finishWith]

/-- C1 witness: the spec's example — N = 5, cancel during unit 3,
within the budget — terminates playback and ends in the Cancelled
terminal state with an empty checkpoint store. -/
theorem cancel_mid_unit_outcomes_witness :
    (read_worker_step envAll3 (handle_stop_button c1w)).live = [] ∧
    (read_worker_step envAll3 (read_worker_step envAll3
        (handle_stop_button c1w))).live = [] ∧
    (read_worker_step envAll3 (read_worker_step envAll3
        (handle_stop_button c1w))).phase = Phase.finished EndReason.stopped ∧
    (read_worker_step envAll3 (read_worker_step envAll3
        (handle_stop_button c1w))).checkpoint = none :=
  ⟨(cancel_mid_unit_outcomes envAll3 c1w 2 rfl).1,
   (cancel_mid_unit_outcomes envAll3 c1w 2 rfl).2.2.1,
   ((cancel_mid_unit_outcomes envAll3 c1w 2 rfl).2.2.2.1
      (by decide) (by decide)).1,
   ((cancel_mid_unit_outcomes envAll3 c1w 2 rfl).2.2.2.1
      (by decide) (by decide)).2⟩

/-- C5: a render failure (`create_audio_file` returning false) at a
unit boundary makes the worker skip that unit and continue at the next
one without ending the session; and on the spec's example (N = 3 with
the second unit's render failing) the session still ends `Completed`,
having spoken units 1 and 3. -/
theorem render_failure_skips_unit (env : Env) (c : Config)
    (hp : c.phase = Phase.boundary) (hi : c.idx < c.n)
    (ht : ¬ SESSION_LIMIT < c.now) (hst : c.stopReading = false)
    (hre : env.create_audio_ok c.idx = false) :
    (read_worker_step env c =
      { c with idx := c.idx + 1, checkpoint := some ⟨c.seqId, c.idx + 2⟩ } ∧
     is_reading (read_worker_step env c) = true) ∧
    ((run envSkip1 (initConfig 3 ['t'] 0 none) (List.replicate 10 Act.tick)).phase
        = Phase.finished EndReason.completed ∧
     (run envSkip1 (initConfig 3 ['t'] 0 none) (List.replicate 10 Act.tick)).spoken
        = [0, 2]) := by
  have hi2 : ¬ (c.n ≤ c.idx) := by omega
  have h1 : read_worker_step env c =
      { c with idx := c.idx + 1, checkpoint := some ⟨c.seqId, c.idx + 2⟩ } := by
    simp [read_worker_step, hp, boundaryStep, hi2, ht, hst, hre]
  refine ⟨⟨h1, ?_⟩, by decide⟩
  rw [h1]
  simp [is_reading, hp]

/-- C5 witness: the skip step at a concrete boundary where the second
of three renders fails. -/
theorem render_failure_skips_unit_witness :
    (read_worker_step envSkip1 c5w =
      { c5w with idx := 2, checkpoint := some ⟨['t'], 3⟩ } ∧
     is_reading (read_worker_step envSkip1 c5w) = true) ∧
    ((run envSkip1 (initConfig 3 ['t'] 0 none) (List.replicate 10 Act.tick)).phase
        = Phase.finished EndReason.completed ∧
     (run envSkip1 (initConfig 3 ['t'] 0 none) (List.replicate 10 Act.tick)).spoken
        = [0, 2]) :=
  render_failure_skips_unit envSkip1 c5w rfl (by decide) (by decide) rfl rfl

/-- C3 counterexample: with a single 700 s unit, the session clock
passes the 600 s budget mid-unit (after 6002 worker steps the elapsed
time is 600100 ms), yet the controller is still Reading and remains
Reading after a further poll step — the transition to `Completed` does
not happen within one poll interval of the deadline, because the budget
is only checked at unit boundaries (src/main.py line 114). -/
theorem session_budget_not_within_one_poll :
    SESSION_LIMIT <
      (run envLong (initConfig 1 ['t'] 0 none)
        (List.replicate 6002 Act.tick)).now ∧
    is_reading (run envLong (initConfig 1 ['t'] 0 none)
        (List.replicate 6002 Act.tick)) = true ∧
    is_reading (read_worker_step envLong
      (run envLong (initConfig 1 ['t'] 0 none)
        (List.replicate 6002 Act.tick))) = true := by
  have h0 : stepAct envLong Act.tick (initConfig 1 ['t'] 0 none) =
      { n := 1, seqId := ['t'], idx := 0, phase := Phase.playing 7000,
        isPaused := false, stopReading := false, now := 0, live := [0],
        nextPid := 1, checkpoint := none, spoken := [] } := by
    decide
  have h1 : run envLong (initConfig 1 ['t'] 0 none)
      (List.replicate 6002 Act.tick) =
      { n := 1, seqId := ['t'], idx := 0, phase := Phase.playing 999,
        isPaused := false, stopReading := false, now := 600100, live := [0],
        nextPid := 1, checkpoint := none, spoken := [] } := by
    rw [List.replicate_succ, run_cons, h0,
      play_ticks envLong 6001
        { n := 1, seqId := ['t'], idx := 0, phase := Phase.playing 7000,
          isPaused := false, stopReading := false, now := 0, live := [0],
          nextPid := 1, checkpoint := none, spoken := [] }
        7000 rfl (by omega) rfl rfl]
  rw [h1]
  refine ⟨by decide, by decide, by decide⟩

/-- C3 (amended): the session is hard-capped at a fixed 600 s budget
measured from the worker's start; the clock is never reset (in
particular not by pauses, whose busy-wait only advances it); the budget
is checked only at unit boundaries, where an expired clock forces the
`Completed`-by-timeout terminal state even with units remaining — but a
unit already playing when the deadline passes is not interrupted. -/
theorem session_budget_checked_at_unit_boundaries (env : Env) :
    (∀ c : Config, c.phase = Phase.boundary → c.idx < c.n →
      SESSION_LIMIT < c.now →
      (read_worker_step env c).phase = Phase.finished EndReason.timeLimit) ∧
    (∀ (a : Act) (c : Config), c.now ≤ (stepAct env a c).now) := by
  constructor
  · intro c hp hi ht
    have hi2 : ¬ (c.n ≤ c.idx) := by omega
    simp [read_worker_step, hp, boundaryStep, hi2, ht, finishWith]
  · intro a c
    cases a with
    | pauseBtn =>
      simp only [stepAct, handle_pause_button]
      by_cases hr : is_reading c = true <;> simp [hr]
    | stopBtn =>
      simp only [stepAct, handle_stop_button]
      by_cases hr : is_reading c = true <;> simp [hr]
    | tick =>
      simp only [stepAct]
      match hp : c.phase with
      | Phase.boundary =>
        simp only [read_worker_step, hp, boundaryStep]
        by_cases h1 : c.n ≤ c.idx
        · simp [h1, finishWith]
        · by_cases h2 : SESSION_LIMIT < c.now
          · simp [h1, h2, finishWith]
          · by_cases h3 : c.stopReading = true
            · simp [h1, h2, h3, finishWith]
            · by_cases h4 : env.create_audio_ok c.idx
              · by_cases h5 : env.play_audio_ok c.idx
                · simp [h1, h2, h3, h4, h5]
                · simp [h1, h2, h3, h4, h5]
              · simp [h1, h2, h3, h4]
      | Phase.playing r =>
        simp only [read_worker_step, hp]
        match r with
        | 0 => simp [playingStep]
        | r + 1 =>
          simp only [playingStep]
          by_cases h1 : c.stopReading = true
          · simp [h1]
          · by_cases h2 : c.isPaused = true
            · simp [h1, h2]
            · simp [h1, h2]
      | Phase.pausedWait =>
        simp only [read_worker_step, hp, pausedStep]
        by_cases h1 : c.stopReading = true
        · simp [h1]
        · by_cases h2 : c.isPaused = true
          · simp [h1, h2]
          · by_cases h3 : env.play_audio_ok c.idx
            · simp [h1, h2, h3]
            · simp [h1, h2, h3]
      | Phase.finished r =>
        simp [read_worker_step, hp]

/-- C3 witness: at a concrete expired boundary the worker finishes by
timeout, and a concrete pause-wait step does not decrease the clock. -/
theorem session_budget_witness :
    (read_worker_step envAll2 c3w).phase = Phase.finished EndReason.timeLimit ∧
    c3w.now ≤ (stepAct envAll2 Act.tick c3w).now :=
  ⟨(session_budget_checked_at_unit_boundaries envAll2).1 c3w rfl (by decide)
      (by decide),
   (session_budget_checked_at_unit_boundaries envAll2).2 Act.tick c3w⟩

/-- C4: a checkpoint recording `next_unit_index = k` is persisted when
the unit before k finishes playing; on restart with the same extracted
text (matching fingerprint) the session is rebuilt to resume at unit k
(0-based start index k - 1, not unit 1); a checkpoint whose
`sequence_id` does not match the new text's fingerprint is discarded
and narration starts at unit 1. -/
theorem restart_resume_matching_checkpoint :
    (∀ (env : Env) (c : Config), c.phase = Phase.playing 0 →
      (read_worker_step env c).checkpoint = some ⟨c.seqId, c.idx + 2⟩) ∧
    (∀ (text : List Char) (k : Nat), 2 ≤ k →
      (start_session text (some ⟨fingerprint text, k⟩)).idx = k - 1 ∧
      k - 1 ≠ 0) ∧
    (∀ (text : List Char) (cp : Checkpoint),
      cp.sequence_id ≠ fingerprint text →
      startup_resume (some cp) text = (1, none)) := by
  refine ⟨?_, ?_, ?_⟩
  · intro env c hp
    simp [read_worker_step, hp, playingStep]
  · intro text k hk
    refine ⟨by simp [start_session, startup_resume, initConfig], by omega⟩
  · intro text cp hne
    simp [startup_resume, hne]

/-- C4 witness: unit 3 (0-based index 2) finishing persists
`next_unit_index = 4`; restarting with the same two-character text and
a checkpoint at unit 3 resumes at 0-based index 2; a checkpoint with a
mismatched `sequence_id` is discarded. -/
theorem restart_resume_witness :
    (read_worker_step envAll2 c4w).checkpoint = some ⟨['a', 'b'], 4⟩ ∧
    ((start_session ['a', 'b'] (some ⟨fingerprint ['a', 'b'], 3⟩)).idx = 2 ∧
      (3 : Nat) - 1 ≠ 0) ∧
    startup_resume (some ⟨['z'], 3⟩) ['a', 'b'] = (1, none) :=
  ⟨restart_resume_matching_checkpoint.1 envAll2 c4w rfl,
   restart_resume_matching_checkpoint.2.1 ['a', 'b'] 3 (by decide),
   restart_resume_matching_checkpoint.2.2 ['a', 'b'] ⟨['z'], 3⟩ (by decide)⟩

@[simp]
theorem runT_nil (env : EnvT) (s : Sys) : runT env s [] = s := rfl

@[simp]
theorem runT_cons (env : EnvT) (s : Sys) (a : ActT) (acts : List ActT) :
    runT env s (a :: acts) = runT env (stepActT env a s) acts := rfl

/-- The new worker's step never touches the old worker's thread state
or its playback subprocess. -/
theorem newStepT_old (env : EnvT) (s : Sys) :
    (newStepT env s).old = s.old ∧ (newStepT env s).liveOld = s.liveOld := by
  match hw : s.newW with
  | none => simp [newStepT, hw]
  | some w =>
    match hp : w.phase with
    | WPhase.starting => simp [newStepT, hw, hp]
    | WPhase.boundary =>
      by_cases h1 : w.n ≤ w.idx
      · simp [newStepT, hw, hp, h1]
      · by_cases h2 : s.stopR = true <;> simp [newStepT, hw, hp, h1, h2]
    | WPhase.rendering 0 => simp [newStepT, hw, hp]
    | WPhase.rendering (r + 1) => simp [newStepT, hw, hp]
    | WPhase.playing 0 => simp [newStepT, hw, hp]
    | WPhase.playing (r + 1) =>
      by_cases h1 : s.stopR = true
      · simp [newStepT, hw, hp, h1]
      · by_cases h2 : s.pausedR = true <;> simp [newStepT, hw, hp, h1, h2]
    | WPhase.pausedW =>
      by_cases h1 : s.stopR = true
      · simp [newStepT, hw, hp, h1]
      · by_cases h2 : s.pausedR = true <;> simp [newStepT, hw, hp, h1, h2]
    | WPhase.finishedW => simp [newStepT, hw, hp]

/-- The joining main thread never touches the old worker's thread
state, its playback subprocess, or the shared stop flag. -/
theorem mainStepT_old (s : Sys) :
    (mainStepT s).old = s.old ∧ (mainStepT s).liveOld = s.liveOld ∧
    (mainStepT s).stopR = s.stopR := by
  match hj : s.joinLeft with
  | none => simp [mainStepT, hj]
  | some k =>
    by_cases h1 : s.old.phase = WPhase.finishedW
    · simp [mainStepT, hj, h1]
    · match k with
      | 0 => simp [mainStepT, hj, h1]
      | k + 1 => simp [mainStepT, hj, h1]

theorem newStepT_none (env : EnvT) (s : Sys) (h : s.newW = none) :
    newStepT env s = s := by
  simp [newStepT, h]

/-- Once the old worker's thread has exited with its playback
terminated, one quantum leaves it exited with no playback. -/
theorem sysTick_old_finished (env : EnvT) (s : Sys)
    (h : s.old.phase = WPhase.finishedW) (hl : s.liveOld = false) :
    (sysTick env s).old.phase = WPhase.finishedW ∧
    (sysTick env s).liveOld = false := by
  have h1 : oldStepT env s = s := by simp [oldStepT, h]
  have h2 := newStepT_old env s
  have h3 := mainStepT_old (newStepT env s)
  simp only [sysTick, h1]
  exact ⟨by rw [h3.1, h2.1, h], by rw [h3.2.1, h2.2, hl]⟩

/-- An exited old worker stays exited with no playback under every
further event — also the arrival of more new text. -/
theorem old_finished_absorbing (env : EnvT) :
    ∀ (acts : List ActT) (s : Sys), s.old.phase = WPhase.finishedW →
      s.liveOld = false →
      (runT env s acts).old.phase = WPhase.finishedW ∧
      (runT env s acts).liveOld = false := by
  intro acts
  induction acts with
  | nil =>
    intro s h hl
    exact ⟨h, hl⟩
  | cons a acts ih =>
    intro s h hl
    have hstep : (stepActT env a s).old.phase = WPhase.finishedW ∧
        (stepActT env a s).liveOld = false := by
      cases a with
      | tickT => exact sysTick_old_finished env s h hl
      | captureEv nNew => simp [stepActT, handoffT, h, hl]
    rw [runT_cons]
    exact ih _ hstep.1 hstep.2

/-- A quantum's effect on the old worker's thread state and playback
is exactly its own step's: the other two threads do not touch them. -/
theorem sysTick_oldProj (env : EnvT) (s : Sys) :
    (sysTick env s).old = (oldStepT env s).old ∧
    (sysTick env s).liveOld = (oldStepT env s).liveOld := by
  have h2 := newStepT_old env (oldStepT env s)
  have h3 := mainStepT_old (newStepT env (oldStepT env s))
  simp only [sysTick]
  exact ⟨by rw [h3.1, h2.1], by rw [h3.2.1, h2.2]⟩

set_option maxRecDepth 20000 in
/-- C10 counterexample: the join-timeout race.  The old worker enters
the 3 s render of its second unit; new text arrives, so
`read_text_threaded` sets `stop_reading` and joins with the 2 s
timeout; the render still blocks when the join expires, so the new
worker thread starts anyway and its first statements reset the shared
`stop_reading` (line 106); the new worker renders and plays its unit —
and when the old worker's render finally returns, line 128 spawns its
playback with no further stop check.  The final state has both
playback subprocesses live at once: the previous session's playback
does continue alongside the new one, refuting the claim. -/
theorem join_timeout_overlap_counterexample :
    (runT envT10 s10 handoff_race).liveOld = true ∧
    (runT envT10 s10 handoff_race).liveNew = true ∧
    (runT envT10 s10 handoff_race).old.phase = WPhase.playing 50 ∧
    (runT envT10 s10 handoff_race).stopR = false := by
  refine ⟨by decide, by decide, by decide, by decide⟩

/-- C10 (amended): with new text arriving during an active session,
`read_text_threaded` sets the shared stop flag and enters the 2 s join
without yet starting the new worker.  An old worker that is at a
stop-observing point — a unit boundary or its playback monitor loop,
not blocked inside a render — terminates, playback ended, within two
100 ms quanta, well inside the join window; the join then returns and
the new worker starts at the first unit of the new text; and an exited
old worker never plays again, so in this case the previous playback
does not continue alongside the new session.  (When the old worker is
blocked in a render past the join timeout, the overlap of the
counterexample occurs instead.) -/
theorem new_text_handoff_amended (env : EnvT) :
    (∀ (s : Sys) (nNew : Nat), s.old.phase ≠ WPhase.finishedW →
      handoffT nNew s =
        { s with stopR := true, joinLeft := some JOIN_POLLS,
                 newN := nNew }) ∧
    (∀ s : Sys, s.stopR = true → s.newW = none →
      (s.old.phase = WPhase.boundary ∨
        ∃ r', s.old.phase = WPhase.playing r') →
      (sysTick env (sysTick env s)).old.phase = WPhase.finishedW ∧
      (sysTick env (sysTick env s)).liveOld = false) ∧
    (∀ (s : Sys) (k : Nat), s.joinLeft = some k →
      s.old.phase = WPhase.finishedW →
      mainStepT s =
        { s with joinLeft := none,
                 newW := some { n := s.newN, idx := 0,
                                phase := WPhase.starting } }) ∧
    (∀ (s : Sys) (acts : List ActT), s.old.phase = WPhase.finishedW →
      s.liveOld = false →
      (runT env s acts).old.phase = WPhase.finishedW ∧
      (runT env s acts).liveOld = false) := by
  refine ⟨?_, ?_, ?_, fun s acts h hl => old_finished_absorbing env acts s h hl⟩
  · intro s nNew h
    simp [handoffT, h]
  · intro s hs hnw hph
    have ht1 : (sysTick env s).old.phase = WPhase.boundary ∧
        (sysTick env s).liveOld = false ∧ (sysTick env s).stopR = true ∨
        ((sysTick env s).old.phase = WPhase.finishedW ∧
         (sysTick env s).liveOld = false) := by
      have hmain := mainStepT_old (oldStepT env s)
      have hnw2 : (oldStepT env s).newW = none := by
        rcases hph with hb | ⟨r', hr'⟩
        · by_cases hx : s.old.n ≤ s.old.idx <;> simp [oldStepT, hb, hx, hs, hnw]
        · match r', hr' with
          | 0, hr' => simp [oldStepT, hr', hnw]
          | r' + 1, hr' => simp [oldStepT, hr', hs, hnw]
      have hnewid : newStepT env (oldStepT env s) = oldStepT env s :=
        newStepT_none env _ hnw2
      rcases hph with hb | ⟨r', hr'⟩
      · refine Or.inr ?_
        have hold : (oldStepT env s).old.phase = WPhase.finishedW ∧
            (oldStepT env s).liveOld = false := by
          by_cases hx : s.old.n ≤ s.old.idx <;> simp [oldStepT, hb, hx, hs]
        simp only [sysTick, hnewid]
        exact ⟨by rw [hmain.1, hold.1], by rw [hmain.2.1, hold.2]⟩
      · refine Or.inl ?_
        have hold : (oldStepT env s).old.phase = WPhase.boundary ∧
            (oldStepT env s).liveOld = false ∧
            (oldStepT env s).stopR = true := by
          match r', hr' with
          | 0, hr' => simp [oldStepT, hr', hs]
          | r' + 1, hr' => simp [oldStepT, hr', hs]
        simp only [sysTick, hnewid]
        exact ⟨by rw [hmain.1, hold.1], by rw [hmain.2.1, hold.2.1],
          by rw [hmain.2.2, hold.2.2]⟩
    rcases ht1 with ⟨hb, hl, hst⟩ | ⟨hf, hl⟩
    · have hold2 : (oldStepT env (sysTick env s)).old.phase
          = WPhase.finishedW ∧
          (oldStepT env (sysTick env s)).liveOld = false := by
        by_cases hx : (sysTick env s).old.n ≤ (sysTick env s).old.idx <;>
          simp [oldStepT, hb, hx, hst]
      obtain ⟨ho, hlv⟩ := sysTick_oldProj env (sysTick env s)
      constructor
      · rw [ho]
        exact hold2.1
      · rw [hlv]
        exact hold2.2
    · exact sysTick_old_finished env _ hf hl
  · intro s k hj hp
    simp [mainStepT, hj, hp]

/-- C10 witness: the amended behaviors at concrete states — the stop
and join begin on `s10`, a monitored old worker (`s10b`) exits within
two quanta, a completed join (`s10c`) starts the new worker at its
first unit, and the exited worker stays silent for a further quantum. -/
theorem new_text_handoff_witness :
    handoffT 1 s10 =
      { s10 with stopR := true, joinLeft := some JOIN_POLLS, newN := 1 } ∧
    ((sysTick envT10 (sysTick envT10 s10b)).old.phase = WPhase.finishedW ∧
     (sysTick envT10 (sysTick envT10 s10b)).liveOld = false) ∧
    mainStepT s10c =
      { s10c with joinLeft := none,
                  newW := some { n := 1, idx := 0,
                                 phase := WPhase.starting } } ∧
    ((runT envT10 s10c [ActT.tickT]).old.phase = WPhase.finishedW ∧
     (runT envT10 s10c [ActT.tickT]).liveOld = false) :=
  ⟨(new_text_handoff_amended envT10).1 s10 1 (by decide),
   (new_text_handoff_amended envT10).2.1 s10b rfl rfl (Or.inr ⟨4, rfl⟩),
   (new_text_handoff_amended envT10).2.2.1 s10c 18 rfl rfl,
   (new_text_handoff_amended envT10).2.2.2 s10c [ActT.tickT] rfl rfl⟩

/-- C2: a PauseToggle during playback of unit k stops the subprocess
mid-unit and enters the pause wait; a second PauseToggle replays unit k
from its beginning (the full duration `env.dur c.idx`, not the
interrupted remainder `r + 1`); after the replay finishes in full, the
sequence continues with unit k + 1 playing. -/
theorem pause_resume_replays_unit_from_start (env : Env) (c : Config) (r : Nat)
    (hp : c.phase = Phase.playing (r + 1))
    (hpa : c.isPaused = false) (hst : c.stopReading = false)
    (hplay : env.play_audio_ok c.idx = true)
    (hn : c.idx + 1 < c.n)
    (hre2 : env.create_audio_ok (c.idx + 1) = true)
    (hpl2 : env.play_audio_ok (c.idx + 1) = true)
    (ht : c.now + 100 + 100 * env.dur c.idx ≤ SESSION_LIMIT) :
    (run env c [Act.pauseBtn, Act.tick]).phase = Phase.pausedWait ∧
    (run env c [Act.pauseBtn, Act.tick]).live = [] ∧
    (run env c [Act.pauseBtn, Act.tick, Act.pauseBtn, Act.tick]).phase
        = Phase.playing (env.dur c.idx) ∧
    (run env c (([Act.pauseBtn, Act.tick, Act.pauseBtn, Act.tick] ++
        List.replicate (env.dur c.idx) Act.tick) ++ [Act.tick, Act.tick])).idx
        = c.idx + 1 ∧
    (run env c (([Act.pauseBtn, Act.tick, Act.pauseBtn, Act.tick] ++
        List.replicate (env.dur c.idx) Act.tick) ++ [Act.tick, Act.tick])).phase
        = Phase.playing (env.dur (c.idx + 1)) ∧
    (run env c (([Act.pauseBtn, Act.tick, Act.pauseBtn, Act.tick] ++
        List.replicate (env.dur c.idx) Act.tick) ++ [Act.tick, Act.tick])).spoken
        = c.spoken ++ [c.idx] := by
  have hread : is_reading c = true := by simp [is_reading, hp]
  have hA : run env c [Act.pauseBtn, Act.tick] =
      { c with isPaused := true, now := c.now + 100, live := [],
               phase := Phase.pausedWait } := by
    simp [run, stepAct, handle_pause_button, hread, hpa, read_worker_step, hp,
      playingStep, hst]
  have hB : run env c [Act.pauseBtn, Act.tick, Act.pauseBtn, Act.tick] =
      { c with isPaused := false, now := c.now + 100, live := [c.nextPid],
               nextPid := c.nextPid + 1,
               phase := Phase.playing (env.dur c.idx) } := by
    have e1 : ([Act.pauseBtn, Act.tick, Act.pauseBtn, Act.tick] : List Act)
        = [Act.pauseBtn, Act.tick] ++ [Act.pauseBtn, Act.tick] := rfl
    rw [e1, run_append, hA]
    simp [run, stepAct, handle_pause_button, is_reading, read_worker_step,
      pausedStep, hst, hplay]
  have hC : run env c ([Act.pauseBtn, Act.tick, Act.pauseBtn, Act.tick] ++
      List.replicate (env.dur c.idx) Act.tick) =
      { c with isPaused := false, now := c.now + 100 + 100 * env.dur c.idx,
               live := [c.nextPid], nextPid := c.nextPid + 1,
               phase := Phase.playing 0 } := by
    rw [run_append, hB,
      play_ticks env (env.dur c.idx)
        { c with isPaused := false, now := c.now + 100, live := [c.nextPid],
                 nextPid := c.nextPid + 1,
                 phase := Phase.playing (env.dur c.idx) }
        (env.dur c.idx) rfl (Nat.le_refl _) rfl hst]
    simp [Nat.sub_self]
  have hn2 : ¬ (c.n ≤ c.idx + 1) := by omega
  have ht2 : ¬ (SESSION_LIMIT < c.now + 100 + 100 * env.dur c.idx) := by omega
  have hF : run env c (([Act.pauseBtn, Act.tick, Act.pauseBtn, Act.tick] ++
      List.replicate (env.dur c.idx) Act.tick) ++ [Act.tick, Act.tick]) =
      { c with isPaused := false, now := c.now + 100 + 100 * env.dur c.idx,
               live := [c.nextPid + 1], nextPid := c.nextPid + 1 + 1,
               idx := c.idx + 1, phase := Phase.playing (env.dur (c.idx + 1)),
               checkpoint := some ⟨c.seqId, c.idx + 2⟩,
               spoken := c.spoken ++ [c.idx] } := by
    rw [run_append, hC]
    simp [run, stepAct, read_worker_step, playingStep, boundaryStep, hn2, ht2,
      hst, hre2, hpl2]
  rw [hA, hB, hF]
  exact ⟨rfl, rfl, rfl, rfl, rfl, rfl⟩

/-- C2 witness: the spec's example — N = 3, pause during unit 2, resume
— replays unit 2 in full (two polls) and then unit 3 plays. -/
theorem pause_resume_witness :
    (run envAll2 c2w [Act.pauseBtn, Act.tick]).phase = Phase.pausedWait ∧
    (run envAll2 c2w [Act.pauseBtn, Act.tick]).live = [] ∧
    (run envAll2 c2w [Act.pauseBtn, Act.tick, Act.pauseBtn, Act.tick]).phase
        = Phase.playing 2 ∧
    (run envAll2 c2w (([Act.pauseBtn, Act.tick, Act.pauseBtn, Act.tick] ++
        List.replicate 2 Act.tick) ++ [Act.tick, Act.tick])).idx = 2 ∧
    (run envAll2 c2w (([Act.pauseBtn, Act.tick, Act.pauseBtn, Act.tick] ++
        List.replicate 2 Act.tick) ++ [Act.tick, Act.tick])).phase
        = Phase.playing 2 ∧
    (run envAll2 c2w (([Act.pauseBtn, Act.tick, Act.pauseBtn, Act.tick] ++
        List.replicate 2 Act.tick) ++ [Act.tick, Act.tick])).spoken
        = [0, 1] :=
  pause_resume_replays_unit_from_start envAll2 c2w 0 rfl rfl rfl rfl
    (by decide) rfl rfl (by decide)

end VVR
